import Mathlib

/-!
Verification of the relevance/scoring/categorization engine and the
discovery-and-dedup scheduler of the youtube-ai-monitor repository,
shallowly embedded from `src/analyzer.py` and `src/monitor.py`.
-/

namespace YTM

/-- Lowercase a string into a list of characters (Python `str.lower()`,
applied character-wise; the repository only uses ASCII keywords). -/
def lowerS (s : String) : List Char := s.toList.map Char.toLower

/-- Boolean prefix test on character lists: `leadsWith n h` holds when `n`
is a prefix of `h`. -/
def leadsWith : List Char → List Char → Bool
  | [], _ => true
  | _ :: _, [] => false
  | a :: as, b :: bs => a == b && leadsWith as bs

/-- Boolean substring test: `hasSub n h` holds when `n` occurs contiguously
inside `h` (Python `n in h` on strings). -/
def hasSub (n : List Char) : List Char → Bool
  | [] => leadsWith n []
  | c :: t => leadsWith n (c :: t) || hasSub n t

/-- `ai_keywords` from `ContentAnalyzer.__init__`. -/
def ai_keywords : List String :=
  ["ai", "artificial intelligence", "machine learning", "ml", "llm", "gpt",
   "claude", "chatgpt", "copilot", "github copilot", "openai", "anthropic",
   "neural network", "deep learning", "transformer", "bert", "nlp"]

/-- `coding_keywords` from `ContentAnalyzer.__init__`. -/
def coding_keywords : List String :=
  ["programming", "coding", "development", "software", "code", "python",
   "javascript", "react", "node", "web development", "app development",
   "api", "framework", "library", "tutorial", "how to code", "build",
   "create", "developer", "engineering"]

/-- `ai_coding_keywords` from `ContentAnalyzer.__init__` (high-value phrases). -/
def ai_coding_keywords : List String :=
  ["ai coding", "ai programming", "code with ai", "ai assistant",
   "prompt engineering", "code generation", "automated coding",
   "ai pair programming", "intelligent code completion", "ai debugging",
   "code review ai", "ai refactoring"]

/-- `categories` vocabulary from `ContentAnalyzer.__init__`, in Python dict
insertion order. -/
def categories_vocab : List (String × List String) :=
  [("claude", ["claude", "anthropic", "claude ai", "claude coding"]),
   ("chatgpt", ["chatgpt", "chat gpt", "openai", "gpt-4", "gpt-3"]),
   ("copilot", ["github copilot", "copilot", "microsoft copilot"]),
   ("tutorials", ["tutorial", "how to", "guide", "learn", "course", "lesson"]),
   ("tools", ["tool", "extension", "plugin", "ide", "vscode", "editor"]),
   ("development", ["build", "create", "develop", "project", "app"]),
   ("review", ["review", "comparison", "vs", "versus", "test", "demo"]),
   ("advanced", ["advanced", "expert", "professional", "enterprise", "scaling"])]

/-- `trusted_channels` from `ContentAnalyzer.__init__`. -/
def trusted_channels : List String :=
  ["fireship", "coding with john", "freecodecamp", "traversy media",
   "the net ninja", "academind", "programming with mosh", "sentdex",
   "tech with tim", "corey schafer", "derek banas", "dev ed"]

/-- A video dictionary as consumed by the analyzer and monitor. Fields that
the Python code reads with `video.get(key, default)` are `Option`s, so a
missing key is representable. -/
structure Video where
  id : String
  title : Option String
  description : Option String
  tags : Option (List String)
  channel_title : Option String
  view_count : Option Nat
  like_count : Option Nat
deriving DecidableEq

/-- Lowercased title, `video.get("title", "").lower()`. -/
def titleL (v : Video) : List Char := lowerS (v.title.getD "")

/-- Lowercased channel name, `video.get("channel_title", "").lower()`. -/
def channelL (v : Video) : List Char := lowerS (v.channel_title.getD "")

/-- The combined search text built by the analyzer: title, a space,
description, a space, then the space-joined tags, every part lowercased.
Note that the channel name is not part of it. -/
def contentOf (v : Video) : List Char :=
  titleL v ++ ' ' :: lowerS (v.description.getD "")
    ++ ' ' :: List.intercalate [' '] ((v.tags.getD []).map lowerS)

/-- `sum(1 for keyword in kws if keyword in content)`. -/
def countKw (kws : List String) (content : List Char) : Nat :=
  (kws.filter (fun k => hasSub k.toList content)).length

/-- `any(trusted in channel for trusted in self.trusted_channels)`. -/
def isTrusted (v : Video) : Bool :=
  trusted_channels.any (fun t => hasSub t.toList (channelL v))

/-- `ContentAnalyzer.is_ai_coding_relevant`, translated line by line. -/
def is_ai_coding_relevant (v : Video) : Bool :=
  let content := contentOf v
  let ai_coding_score := countKw ai_coding_keywords content
  let ai_score := countKw ai_keywords content
  let coding_score := countKw coding_keywords content
  let channel_bonus := if isTrusted v then 2 else 0
  let total_score := ai_coding_score * 3 + ai_score + coding_score + channel_bonus
  let has_ai := decide (ai_score > 0) || decide (ai_coding_score > 0)
  let has_coding := decide (coding_score > 0) || decide (ai_coding_score > 0)
  decide (ai_coding_score ≥ 1) || (has_ai && has_coding && decide (total_score ≥ 3))

/-- `ContentAnalyzer.calculate_relevance_score`, translated line by line:
three accumulating loops over the keyword lists, the trusted-channel bonus,
the view/like bonuses, and the final `min(score, 100)`. -/
def calculate_relevance_score (v : Video) : Nat :=
  let title := titleL v
  let content := contentOf v
  let s1 := ai_coding_keywords.foldl
    (fun s k => if hasSub k.toList content then
      s + 15 + (if hasSub k.toList title then 10 else 0) else s) 0
  let s2 := ai_keywords.foldl
    (fun s k => if hasSub k.toList content then
      s + 5 + (if hasSub k.toList title then 5 else 0) else s) s1
  let s3 := coding_keywords.foldl
    (fun s k => if hasSub k.toList content then
      s + 3 + (if hasSub k.toList title then 3 else 0) else s) s2
  let s4 := if isTrusted v then s3 + 20 else s3
  let s5 := if v.view_count.getD 0 > 100000 then s4 + 10
    else if v.view_count.getD 0 > 10000 then s4 + 5 else s4
  let s6 := if v.like_count.getD 0 > 1000 then s5 + 5 else s5
  min s6 100

/-- `ContentAnalyzer.categorize_video`: a category applies when any of its
trigger substrings occurs in the combined search text. -/
def categorize_video (v : Video) : List String :=
  let content := contentOf v
  (categories_vocab.filter (fun p => p.2.any (fun k => hasSub k.toList content))).map
    (fun p => p.1)

/-- Python word character (`\w` for ASCII): letters, digits, underscore. -/
def isWordChar (c : Char) : Bool := c.isAlphanum || c == '_'

/-- Word-boundary condition to the right of a match: end of text or a
non-word character. -/
def boundaryAfter : List Char → Bool
  | [] => true
  | c :: _ => !(isWordChar c)

/-- Word-boundary condition to the left of a match: start of text or a
non-word character just before. -/
def boundaryBefore : Option Char → Bool
  | none => true
  | some c => !(isWordChar c)

/-- The pattern word `w` matches at the head of `s` with a closing word
boundary. -/
def matchTokenAt (w s : List Char) : Bool :=
  leadsWith w s && boundaryAfter (s.drop w.length)

/-- Search for a whole-word occurrence of `w` in the text, carrying the
previous character to decide the opening boundary. -/
def wordSearchAux (w : List Char) : Option Char → List Char → Bool
  | prev, [] => boundaryBefore prev && matchTokenAt w []
  | prev, c :: t => (boundaryBefore prev && matchTokenAt w (c :: t))
      || wordSearchAux w (some c) t

/-- Whole-word occurrence of `w` in `s`, the embedding of
`re.search(r"\b" + w + r"\b", s)` for a literal word `w`. -/
def wordOccurs (w : String) (s : List Char) : Bool := wordSearchAux w.toList none s

/-- Match of the pattern `web\s+development` (with closing boundary) at the
head of `s`. -/
def webDevAt (s : List Char) : Bool :=
  leadsWith "web".toList s &&
    (match s.drop 3 with
     | [] => false
     | c :: t =>
       c.isWhitespace &&
         (let r2 := List.dropWhile (fun d => d.isWhitespace) (c :: t)
          leadsWith "development".toList r2 && boundaryAfter (r2.drop 11)))

/-- Search for `\bweb\s+development\b` in the text. -/
def webDevSearch : Option Char → List Char → Bool
  | _, [] => false
  | prev, c :: t => (boundaryBefore prev && webDevAt (c :: t))
      || webDevSearch (some c) t

/-- `ContentAnalyzer.extract_topics`: word-boundary regex matches over the
lowercased concatenation of title and description, in the dict order of
`topic_patterns`. -/
def extract_topics (v : Video) : List String :=
  let content := lowerS (v.title.getD "") ++ ' ' :: lowerS (v.description.getD "")
  let checks : List (String × Bool) :=
    [("react", wordOccurs "react" content),
     ("python", wordOccurs "python" content),
     ("javascript", wordOccurs "javascript" content || wordOccurs "js" content),
     ("web_development", webDevSearch none content),
     ("api", wordOccurs "api" content),
     ("tutorial", wordOccurs "tutorial" content),
     ("beginner", wordOccurs "beginner" content || wordOccurs "basics" content
        || wordOccurs "basic" content),
     ("advanced", wordOccurs "advanced" content || wordOccurs "expert" content)]
  (checks.filter (fun p => p.2)).map (fun p => p.1)

/-- The full classifier output on one item: relevance verdict, score,
categories, topics. -/
def evaluateV (v : Video) : Bool × Nat × List String × List String :=
  (is_ai_coding_relevant v, calculate_relevance_score v,
   categorize_video v, extract_topics v)

/-- The record written by `YouTubeMonitor.save_video`: the video plus the
derived fields it adds before dumping the JSON file. `discovered_at` is a
timestamp modelled as a `Nat`. -/
structure Stored where
  video : Video
  discovered_at : Nat
  categories : List String
  relevance_score : Nat
deriving DecidableEq

/-- The `data/videos` directory: one record per file, keyed by video id. -/
abbrev Store : Type := List (String × Stored)

/-- Membership test of an id in the store (`os.path.exists(filename)`). -/
def storeExists : Store → String → Bool
  | [], _ => false
  | (j, _) :: t, i => j == i || storeExists t i

/-- Read the record stored under an id, when present. -/
def storeLookup : Store → String → Option Stored
  | [], _ => none
  | (j, r) :: t, i => if j == i then some r else storeLookup t i

/-- Number of records in the store carrying the given id. -/
def countId (st : Store) (i : String) : Nat :=
  (st.filter (fun p => p.1 == i)).length

/-- The record `save_video` builds for a new video: `discovered_at`,
`categories` and `relevance_score` are computed at save time. -/
def mkStored (now : Nat) (v : Video) : Stored :=
  { video := v, discovered_at := now,
    categories := categorize_video v,
    relevance_score := calculate_relevance_score v }

/-- `YouTubeMonitor.save_video`: if a file for the id already exists the
function returns without writing; otherwise it writes the enriched record.
The boolean reports whether a write occurred (observable as a new file). -/
def saveVideo (now : Nat) (st : Store) (v : Video) : Store × Bool :=
  if storeExists st v.id then (st, false)
  else ((v.id, mkStored now v) :: st, true)

/-- The body of the per-source loop shared by `monitor_channels` and
`monitor_search_terms`: every relevant video is appended to `new_videos`
and passed to `save_video` (whether or not the save writes anything). -/
def processList (now : Nat) (st : Store) : List Video → List Video × Store
  | [] => ([], st)
  | v :: vs =>
    if is_ai_coding_relevant v then
      let res := processList now (saveVideo now st v).1 vs
      (v :: res.1, res.2)
    else processList now st vs

/-- One pass over a list of sources whose fetch results are given up front:
`Except.error` is a source whose API call raised (caught and logged by the
`except` clause, the loop continues); `Except.ok` is the fetched video
list, fed through the relevance filter and `save_video`. -/
def monitorSources (now : Nat) : List (Except String (List Video)) → Store → List Video × Store
  | [], st => ([], st)
  | Except.error _ :: rest, st => monitorSources now rest st
  | Except.ok vids :: rest, st =>
    let p := processList now st vids
    let m := monitorSources now rest p.2
    (p.1 ++ m.1, m.2)

/-- Boolean membership of a string in a list, via `==`. -/
def memS (x : String) : List String → Bool
  | [] => false
  | y :: t => x == y || memS x t

/-- Keep the first occurrence of every id, dropping ids already seen: the
key set of the dict comprehension in `run_monitoring_cycle`. -/
def dedupAux (seen : List String) : List String → List String
  | [] => []
  | x :: xs => if memS x seen then dedupAux seen xs else x :: dedupAux (x :: seen) xs

/-- Ids of the id-keyed dict built from channel videos followed by search
videos, in first-occurrence order. -/
def dedupIds (l : List String) : List String := dedupAux [] l

/-- `YouTubeMonitor.run_monitoring_cycle` up to its dedup step: poll the
channel sources, then the search sources, and merge the two new-video
lists into the set of new item ids of the cycle. -/
def runCycle (now : Nat) (chans searches : List (Except String (List Video)))
    (st : Store) : List String × Store :=
  let c := monitorSources now chans st
  let s := monitorSources now searches c.2
  (dedupIds ((c.1 ++ s.1).map Video.id), s.2)

/-- Ordering used by `generate_daily_report`:
`sorted(key=relevance_score, reverse=True)` keeps `a` before `b` exactly
when the score of `b` does not exceed the score of `a`. -/
def scoreRel (a b : Stored) : Prop := b.relevance_score ≤ a.relevance_score

instance : DecidableRel scoreRel := fun a b => Nat.decLe b.relevance_score a.relevance_score

instance : IsTotal Stored scoreRel :=
  ⟨fun a b => (Nat.le_total b.relevance_score a.relevance_score)⟩

instance : IsTrans Stored scoreRel :=
  ⟨fun _ _ _ hab hbc => Nat.le_trans hbc hab⟩

/-- The Python stable sort by descending relevance score used for the
daily report top list. Insertion sort with
`scoreRel` is stable for this total preorder, hence extensionally equal to
the stable sort of Python. -/
def pySortDesc (vs : List Stored) : List Stored := List.insertionSort scoreRel vs

/-- `top_videos` of the daily report: first ten of the stable descending
sort. -/
def topVideos (vs : List Stored) : List Stored := (pySortDesc vs).take 10

/-- Modelled from the spec: the tie-breaking order the spec prescribes for
`top_items` — descending score, then more recent `discovered_at` first,
then ascending id. -/
def specBefore (a b : Stored) : Bool :=
  decide (b.relevance_score < a.relevance_score) ||
    (b.relevance_score == a.relevance_score &&
      (decide (b.discovered_at < a.discovered_at) ||
        (b.discovered_at == a.discovered_at && decide (a.video.id ≤ b.video.id))))

/-- Modelled from the spec: `top_items` as the spec describes it, first ten
under the order `specBefore`. -/
def specTopItems (vs : List Stored) : List Stored :=
  (List.insertionSort (fun a b => specBefore a b = true) vs).take 10

/-- Modelled from the spec for claim comparison: the search text as the
claim words it, with the channel name concatenated as well. -/
def claimSearchText (v : Video) : List Char :=
  lowerS (v.title.getD "") ++ ' ' :: lowerS (v.description.getD "")
    ++ ' ' :: List.intercalate [' '] ((v.tags.getD []).map lowerS)
    ++ ' ' :: lowerS (v.channel_title.getD "")

/-- Count of high-value phrase matches in the search text. -/
def countHigh (v : Video) : Nat := countKw ai_coding_keywords (contentOf v)

/-- Count of AI keyword matches in the search text. -/
def countAI (v : Video) : Nat := countKw ai_keywords (contentOf v)

/-- Count of coding keyword matches in the search text. -/
def countCoding (v : Video) : Nat := countKw coding_keywords (contentOf v)

/-- Count of high-value phrases matching both search text and title. -/
def countHighTitle (v : Video) : Nat :=
  (ai_coding_keywords.filter
    (fun k => hasSub k.toList (contentOf v) && hasSub k.toList (titleL v))).length

/-- Count of AI keywords matching both search text and title. -/
def countAITitle (v : Video) : Nat :=
  (ai_keywords.filter
    (fun k => hasSub k.toList (contentOf v) && hasSub k.toList (titleL v))).length

/-- Count of coding keywords matching both search text and title. -/
def countCodingTitle (v : Video) : Nat :=
  (coding_keywords.filter
    (fun k => hasSub k.toList (contentOf v) && hasSub k.toList (titleL v))).length

/-- The closed-form score of the claim: per-keyword bonuses as weighted counts,
reputation and popularity bonuses, clamped to one hundred. -/
def specScore (v : Video) : Nat :=
  min 100 (15 * countHigh v + 10 * countHighTitle v
    + 5 * countAI v + 5 * countAITitle v
    + 3 * countCoding v + 3 * countCodingTitle v
    + (if isTrusted v then 20 else 0)
    + (if v.view_count.getD 0 > 100000 then 10
       else if v.view_count.getD 0 > 10000 then 5 else 0)
    + (if v.like_count.getD 0 > 1000 then 5 else 0))

/-- Accumulating keyword loop as a weighted count: each element passing `p`
adds `per`, and `extra` more when it also passes `q`. -/
theorem foldl_bonus (p q : String → Bool) (per extra : Nat) (l : List String) :
    ∀ init : Nat,
      l.foldl (fun s k => if p k then s + per + (if q k then extra else 0) else s) init
        = init + per * (l.filter p).length
          + extra * (l.filter (fun k => p k && q k)).length := by
  induction l with
  | nil => intro init; simp
  | cons k l ih =>
    intro init
    simp only [List.foldl_cons, List.filter_cons]
    by_cases hp : p k
    · by_cases hq : q k
      · simp only [hp, hq, if_true, ih, List.length_cons, Bool.and_self,
          Nat.mul_succ]
        omega
      · simp [hp, hq, ih, Nat.mul_succ]
        omega
    · simp [hp, ih]

/-- The relevance-score loop equals the closed-form weighted-count score. -/
theorem score_closed (v : Video) : calculate_relevance_score v = specScore v := by
  simp only [calculate_relevance_score, specScore, foldl_bonus,
    countHigh, countAI, countCoding, countHighTitle, countAITitle,
    countCodingTitle, countKw]
  split_ifs <;> omega

/-- The relevance gate in terms of the three match counts and the
trusted-channel bonus. -/
theorem relevant_iff (v : Video) :
    is_ai_coding_relevant v = true ↔
      (1 ≤ countHigh v ∨ (0 < countAI v ∧ 0 < countCoding v ∧
        3 ≤ 3 * countHigh v + countAI v + countCoding v
          + (if isTrusted v then 2 else 0))) := by
  simp only [is_ai_coding_relevant, countHigh, countAI, countCoding,
    Bool.or_eq_true, Bool.and_eq_true, decide_eq_true_eq]
  split_ifs <;> omega

/-- C1: for every video item, the relevance verdict is true iff the
high-value match count is at least one, or both an AI keyword and a coding
keyword match and the weighted total (three per high-value match, one per
other match, plus two for a trusted channel) is at least three. -/
theorem c1_relevance_formula (v : Video) :
    is_ai_coding_relevant v = true ↔
      (1 ≤ countHigh v ∨ (0 < countAI v ∧ 0 < countCoding v ∧
        3 ≤ 3 * countHigh v + countAI v + countCoding v
          + (if isTrusted v then 2 else 0))) :=
  relevant_iff v

/-- C4: for every video item, the relevance score equals the saturating
closed form: fifteen per high-value phrase in the search text plus ten more
when also in the title, five plus five for AI keywords, three plus three
for coding keywords, twenty for a trusted channel, the view-count bonus of
ten over one hundred thousand views else five over ten thousand, five for
over one thousand likes, clamped to the interval from zero to one
hundred. -/
theorem c4_score_formula (v : Video) : calculate_relevance_score v = specScore v :=
  score_closed v

/-- C7: for every video item, with any combination of present or missing
fields, the relevance score lies between zero and one hundred. -/
theorem c7_score_bounds (v : Video) :
    0 ≤ calculate_relevance_score v ∧ calculate_relevance_score v ≤ 100 :=
  ⟨Nat.zero_le _, by simp only [calculate_relevance_score]; exact Nat.min_le_right _ _⟩

/-- C10: every video item judged relevant scores at least eight. -/
theorem c10_relevant_min_score (v : Video) (h : is_ai_coding_relevant v = true) :
    8 ≤ calculate_relevance_score v := by
  rw [score_closed]
  unfold specScore
  refine Nat.le_min.mpr ⟨by norm_num, ?_⟩
  rcases (relevant_iff v).mp h with h1 | ⟨h2, h3, _⟩ <;> split_ifs <;> omega

/-- Concrete relevant item for the C10 witness. -/
def c10vid : Video :=
  { id := "w", title := some "ai coding", description := none, tags := none,
    channel_title := none, view_count := none, like_count := none }

/-- Witness for C10 at a concrete relevant item. -/
theorem c10_relevant_min_score_witness :
    is_ai_coding_relevant c10vid = true ∧ 8 ≤ calculate_relevance_score c10vid :=
  ⟨by decide, c10_relevant_min_score c10vid (by decide)⟩

/-- Concrete item for the C9 witness. -/
def c9vid : Video :=
  { id := "d", title := some "Build a ChatGPT Clone with React and OpenAI API",
    description := some "Learn to create an AI chat app",
    tags := some ["react", "chatgpt", "openai", "tutorial"],
    channel_title := some "JavaScript Mastery",
    view_count := some 50000, like_count := some 2000 }

/-- C9: the classifier is deterministic; it is a pure function of the item,
so equal items receive equal verdict, score, category list and topic
list. -/
theorem c9_deterministic (v w : Video) (h : v = w) : evaluateV v = evaluateV w := by
  rw [h]

/-- Witness for C9 at a concrete item. -/
theorem c9_deterministic_witness : evaluateV c9vid = evaluateV c9vid :=
  c9_deterministic c9vid c9vid rfl

/-- Concrete item refuting C3: all text fields empty, the channel name
alone holds a high-value phrase and a coding keyword. -/
def c3vid : Video :=
  { id := "c3", title := none, description := none, tags := none,
    channel_title := some "ai coding tutorial", view_count := none,
    like_count := none }

/-- C3 counterexample: the claimed search text (which appends the channel
name) differs from the text the code matches against, and the difference is
observable — under the claimed text this item has a high-value match and a
coding match and would be judged relevant, while the code judges it not
relevant. -/
theorem c3_counterexample :
    contentOf c3vid ≠ claimSearchText c3vid ∧
    1 ≤ countKw ai_coding_keywords (claimSearchText c3vid) ∧
    0 < countKw coding_keywords (claimSearchText c3vid) ∧
    is_ai_coding_relevant c3vid = false := by decide

/-- C3 amended: the verdict, score and categories are functions of the
lower-cased concatenation of title, description and tags (the search text),
the lower-cased title, the lower-cased channel name, and the two counters
alone; the input item is not mutated. -/
theorem c3_amended_search_text (v w : Video)
    (hc : contentOf v = contentOf w) (ht : titleL v = titleL w)
    (hch : channelL v = channelL w)
    (hv : v.view_count = w.view_count) (hl : v.like_count = w.like_count) :
    is_ai_coding_relevant v = is_ai_coding_relevant w ∧
      calculate_relevance_score v = calculate_relevance_score w ∧
      categorize_video v = categorize_video w := by
  unfold is_ai_coding_relevant calculate_relevance_score categorize_video
    countKw isTrusted
  rw [hc, ht, hch, hv, hl]
  exact ⟨rfl, rfl, rfl⟩

/-- Concrete pair for the C3 witness: same text fields, different ids. -/
def c3vidA : Video :=
  { id := "a", title := some "ai coding demo", description := none,
    tags := none, channel_title := none, view_count := none, like_count := none }

/-- Second element of the concrete pair for the C3 witness. -/
def c3vidB : Video :=
  { id := "b", title := some "ai coding demo", description := none,
    tags := none, channel_title := none, view_count := none, like_count := none }

/-- Witness for the amended C3 at a concrete pair of items. -/
theorem c3_amended_search_text_witness :
    is_ai_coding_relevant c3vidA = is_ai_coding_relevant c3vidB ∧
      calculate_relevance_score c3vidA = calculate_relevance_score c3vidB ∧
      categorize_video c3vidA = categorize_video c3vidB :=
  c3_amended_search_text c3vidA c3vidB rfl rfl rfl rfl rfl

/-- After saving a video, its id exists in the store. -/
theorem storeExists_save (now : Nat) (st : Store) (v : Video) :
    storeExists (saveVideo now st v).1 v.id = true := by
  unfold saveVideo
  split_ifs with h
  · exact h
  · simp [storeExists]

/-- Saving never removes an id from the store. -/
theorem storeExists_save_mono {st : Store} {i : String}
    (h : storeExists st i = true) (now : Nat) (v : Video) :
    storeExists (saveVideo now st v).1 i = true := by
  unfold saveVideo
  split_ifs
  · exact h
  · simp [storeExists, h]

/-- A successful lookup implies existence. -/
theorem lookup_exists {st : Store} {i : String} {r : Stored}
    (h : storeLookup st i = some r) : storeExists st i = true := by
  induction st with
  | nil => simp [storeLookup] at h
  | cons p t ih =>
    obtain ⟨j, r'⟩ := p
    by_cases hj : j == i
    · simp [storeExists, hj]
    · simp only [storeLookup, hj, if_false] at h
      simp [storeExists, hj, ih h]

/-- Saving any video preserves every record already stored. -/
theorem lookup_save_preserve {st : Store} {i : String} {r : Stored}
    (h : storeLookup st i = some r) (now : Nat) (v : Video) :
    storeLookup (saveVideo now st v).1 i = some r := by
  unfold saveVideo
  split_ifs with he
  · exact h
  · by_cases hq : v.id == i
    · exact absurd (lookup_exists (eq_of_beq hq ▸ h)) (by simp [he])
    · simpa [storeLookup, hq] using h

/-- Processing a candidate list preserves every record already stored. -/
theorem processList_lookup_preserve (now : Nat) (vs : List Video) :
    ∀ (st : Store) (i : String) (r : Stored), storeLookup st i = some r →
      storeLookup (processList now st vs).2 i = some r := by
  induction vs with
  | nil => intro st i r h; simpa [processList] using h
  | cons v vs ih =>
    intro st i r h
    simp only [processList]
    split_ifs
    · exact ih _ _ _ (lookup_save_preserve h now v)
    · exact ih _ _ _ h

/-- Polling a source list preserves every record already stored. -/
theorem monitorSources_lookup_preserve (now : Nat)
    (srcs : List (Except String (List Video))) :
    ∀ (st : Store) (i : String) (r : Stored), storeLookup st i = some r →
      storeLookup (monitorSources now srcs st).2 i = some r := by
  induction srcs with
  | nil => intro st i r h; simpa [monitorSources] using h
  | cons a rest ih =>
    intro st i r h
    match a with
    | Except.error e => exact ih _ _ _ h
    | Except.ok vids =>
      simp only [monitorSources]
      exact ih _ _ _ (processList_lookup_preserve now vids _ _ _ h)

/-- Processing a candidate list never removes an id from the store. -/
theorem processList_exists_mono (now : Nat) (vs : List Video) :
    ∀ (st : Store) (i : String), storeExists st i = true →
      storeExists (processList now st vs).2 i = true := by
  induction vs with
  | nil => intro st i h; simpa [processList] using h
  | cons v vs ih =>
    intro st i h
    simp only [processList]
    split_ifs
    · exact ih _ _ (storeExists_save_mono h now v)
    · exact ih _ _ h

/-- Polling a source list never removes an id from the store. -/
theorem monitorSources_exists_mono (now : Nat)
    (srcs : List (Except String (List Video))) :
    ∀ (st : Store) (i : String), storeExists st i = true →
      storeExists (monitorSources now srcs st).2 i = true := by
  induction srcs with
  | nil => intro st i h; simpa [monitorSources] using h
  | cons a rest ih =>
    intro st i h
    match a with
    | Except.error e => exact ih _ _ h
    | Except.ok vids =>
      simp only [monitorSources]
      exact ih _ _ (processList_exists_mono now vids _ _ h)

/-- Every relevant candidate of a processed list ends up stored. -/
theorem processList_stores (now : Nat) (vs : List Video) :
    ∀ (st : Store) (v : Video), v ∈ vs → is_ai_coding_relevant v = true →
      storeExists (processList now st vs).2 v.id = true := by
  induction vs with
  | nil => intro st v hm; cases hm
  | cons w ws ih =>
    intro st v hm hrel
    rcases List.mem_cons.mp hm with he | ht
    · subst he
      simp only [processList, hrel, if_true]
      exact processList_exists_mono now ws _ _ (storeExists_save now st v)
    · simp only [processList]
      split_ifs
      · exact ih _ _ ht hrel
      · exact ih _ _ ht hrel

/-- Every relevant candidate of every successful source ends up stored. -/
theorem monitorSources_stores (now : Nat)
    (srcs : List (Except String (List Video))) :
    ∀ (st : Store) (vids : List Video) (v : Video),
      Except.ok vids ∈ srcs → v ∈ vids → is_ai_coding_relevant v = true →
      storeExists (monitorSources now srcs st).2 v.id = true := by
  induction srcs with
  | nil => intro st vids v hm; cases hm
  | cons a rest ih =>
    intro st vids v hm hv hrel
    rcases List.mem_cons.mp hm with he | ht
    · subst he
      simp only [monitorSources]
      exact monitorSources_exists_mono now rest _ _
        (processList_stores now vids st v hv hrel)
    · match a with
      | Except.error e => exact ih _ _ _ ht hv hrel
      | Except.ok vids' =>
        simp only [monitorSources]
        exact ih _ _ _ ht hv hrel

/-- A failing source is exactly skipped: the cycle behaves as if it were
absent from the source list. -/
theorem monitorSources_error_skip (now : Nat)
    (l1 l2 : List (Except String (List Video))) (e : String) :
    ∀ st : Store, monitorSources now (l1 ++ Except.error e :: l2) st
      = monitorSources now (l1 ++ l2) st := by
  induction l1 with
  | nil => intro st; rfl
  | cons a l1 ih =>
    intro st
    match a with
    | Except.error e' => simpa [monitorSources] using ih st
    | Except.ok vids => simp [monitorSources, ih]

/-- C8: one failing source does not abort the pass; it is skipped, the
remaining sources still run, and every relevant item of every successful
source is stored. -/
theorem c8_source_failure_isolated (now : Nat)
    (l1 l2 : List (Except String (List Video))) (e : String) (st : Store) :
    monitorSources now (l1 ++ Except.error e :: l2) st
        = monitorSources now (l1 ++ l2) st ∧
      ∀ (vids : List Video) (v : Video), Except.ok vids ∈ l1 ++ l2 →
        v ∈ vids → is_ai_coding_relevant v = true →
        storeExists (monitorSources now (l1 ++ Except.error e :: l2) st).2 v.id
          = true := by
  refine ⟨monitorSources_error_skip now l1 l2 e st, ?_⟩
  intro vids v hm hv hrel
  rw [monitorSources_error_skip]
  exact monitorSources_stores now (l1 ++ l2) st vids v hm hv hrel

/-- Concrete relevant item for the C8 witness. -/
def c8vid : Video :=
  { id := "ok1", title := some "ai coding news", description := none,
    tags := none, channel_title := none, view_count := none, like_count := none }

/-- Witness for C8: one failed source next to one successful source; the
relevant item of the successful source is stored. -/
theorem c8_source_failure_isolated_witness :
    storeExists
      (monitorSources 0 ([Except.ok [c8vid]] ++ Except.error "network" :: [])
        []).2 c8vid.id = true :=
  (c8_source_failure_isolated 0 [Except.ok [c8vid]] [] "network" []).2
    [c8vid] c8vid (by simp) (by simp) (by decide)

/-- Saving an already-present id is a no-op reporting no write. -/
theorem saveVideo_exists_eq {st : Store} {v : Video}
    (h : storeExists st v.id = true) (now : Nat) : saveVideo now st v = (st, false) := by
  simp [saveVideo, h]

/-- With no record under an id, the store holds zero records for it. -/
theorem countId_zero {st : Store} {i : String}
    (h : storeExists st i = false) : countId st i = 0 := by
  induction st with
  | nil => rfl
  | cons p t ih =>
    obtain ⟨j, r⟩ := p
    simp only [storeExists, Bool.or_eq_false_iff] at h
    simp [countId, List.filter_cons, h.1]
    simpa [countId] using ih h.2

/-- C5: saving an absent id writes it; saving the same id again performs no
write, reports no write, leaves the store unchanged — so exactly one record
with that id exists and the first record is intact. -/
theorem c5_put_if_absent (now nxt : Nat) (st : Store) (v w : Video)
    (hid : w.id = v.id) (h0 : storeExists st v.id = false) :
    (saveVideo now st v).2 = true ∧
      (saveVideo nxt (saveVideo now st v).1 w).2 = false ∧
      (saveVideo nxt (saveVideo now st v).1 w).1 = (saveVideo now st v).1 ∧
      storeLookup (saveVideo nxt (saveVideo now st v).1 w).1 v.id
        = some (mkStored now v) ∧
      countId (saveVideo nxt (saveVideo now st v).1 w).1 v.id = 1 := by
  have h1 : saveVideo now st v = ((v.id, mkStored now v) :: st, true) := by
    simp [saveVideo, h0]
  have hex : storeExists (saveVideo now st v).1 w.id = true := by
    rw [hid]; exact storeExists_save now st v
  have h2 : saveVideo nxt (saveVideo now st v).1 w = ((saveVideo now st v).1, false) :=
    saveVideo_exists_eq hex nxt
  refine ⟨by rw [h1], by rw [h2], by rw [h2], ?_, ?_⟩
  · rw [h2]
    simp [h1, storeLookup]
  · rw [h2, h1]
    simp only [countId, List.filter_cons, beq_self_eq_true, if_true,
      List.length_cons]
    have := countId_zero h0
    simp only [countId] at this
    omega

/-- Concrete item for the C5 witness. -/
def c5vid : Video :=
  { id := "dup", title := some "ai coding", description := none, tags := none,
    channel_title := none, view_count := none, like_count := none }

/-- Witness for C5: the double save on the empty store. -/
theorem c5_put_if_absent_witness :
    (saveVideo 3 [] c5vid).2 = true ∧
      (saveVideo 4 (saveVideo 3 [] c5vid).1 c5vid).2 = false ∧
      (saveVideo 4 (saveVideo 3 [] c5vid).1 c5vid).1 = (saveVideo 3 [] c5vid).1 ∧
      storeLookup (saveVideo 4 (saveVideo 3 [] c5vid).1 c5vid).1 c5vid.id
        = some (mkStored 3 c5vid) ∧
      countId (saveVideo 4 (saveVideo 3 [] c5vid).1 c5vid).1 c5vid.id = 1 :=
  c5_put_if_absent 3 4 [] c5vid c5vid rfl rfl

/-- Boolean membership agrees with list membership. -/
theorem memS_iff {x : String} : ∀ {l : List String}, memS x l = true ↔ x ∈ l := by
  intro l
  induction l with
  | nil => simp [memS]
  | cons y t ih => simp [memS, ih, beq_iff_eq]

/-- Elements surviving dedup were not among the ids already seen, and the
surviving list has no duplicates. -/
theorem dedupAux_nodup : ∀ (l seen : List String),
    (∀ x ∈ dedupAux seen l, x ∉ seen) ∧ (dedupAux seen l).Nodup := by
  intro l
  induction l with
  | nil => intro seen; simp [dedupAux]
  | cons x xs ih =>
    intro seen
    by_cases hm : memS x seen
    · simpa [dedupAux, hm] using ih seen
    · have hx : x ∉ seen := fun hc => hm (memS_iff.mpr hc)
      obtain ⟨hfresh, hnd⟩ := ih (x :: seen)
      refine ⟨?_, ?_⟩
      · intro y hy
        simp [dedupAux, hm] at hy
        rcases hy with he | ht
        · exact he ▸ hx
        · exact fun hc => hfresh y ht (List.mem_cons_of_mem x hc)
      · simp only [dedupAux, hm, if_neg, Bool.not_eq_true, if_false]
        exact List.nodup_cons.mpr
          ⟨fun hc => hfresh x hc (List.mem_cons_self x seen), hnd⟩

/-- The deduplicated id list of a cycle has no duplicates. -/
theorem dedupIds_nodup (l : List String) : (dedupIds l).Nodup :=
  (dedupAux_nodup l []).2

/-- Concrete relevant item with id already known to the store, for the C2
counterexample. -/
def c2vid : Video :=
  { id := "x", title := some "ai coding", description := none, tags := none,
    channel_title := none, view_count := none, like_count := none }

/-- The record already stored under the id of `c2vid`. -/
def c2rec : Stored := mkStored 0 c2vid

/-- A store that already knows the id of `c2vid`. -/
def c2store : Store := [("x", c2rec)]

/-- C2 counterexample: the id is already known to the record store, the
save is skipped (the store is unchanged), yet the cycle still reports the
id in its set of new items. -/
theorem c2_counterexample :
    storeExists c2store "x" = true ∧
      (runCycle 1 [Except.ok [c2vid]] [] c2store).2 = c2store ∧
      (runCycle 1 [Except.ok [c2vid]] [] c2store).1 = ["x"] := by decide

/-- C2 amended: within one cycle an id appears at most once in the set of
new items, and records already known to the store are never re-written or
altered — but a known item pulled again and still relevant is re-reported
among the new items. -/
theorem c2_amended_cycle_dedup (now : Nat)
    (chans searches : List (Except String (List Video))) (st : Store)
    (i : String) (r : Stored) (h : storeLookup st i = some r) :
    (runCycle now chans searches st).1.Nodup ∧
      storeLookup (runCycle now chans searches st).2 i = some r := by
  constructor
  · exact dedupIds_nodup _
  · simp only [runCycle]
    exact monitorSources_lookup_preserve now searches _ _ _
      (monitorSources_lookup_preserve now chans _ _ _ h)

/-- Witness for the amended C2 at the concrete store and sources. -/
theorem c2_amended_cycle_dedup_witness :
    (runCycle 1 [Except.ok [c2vid]] [] c2store).1.Nodup ∧
      storeLookup (runCycle 1 [Except.ok [c2vid]] [] c2store).2 "x" = some c2rec :=
  c2_amended_cycle_dedup 1 [Except.ok [c2vid]] [] c2store "x" c2rec (by decide)

/-- Inserting into the score-descending order keeps a score class in order:
the inserted record lands before every record of equal score. -/
theorem filter_orderedInsert (s : Nat) (a : Stored) (t : List Stored) :
    (List.orderedInsert scoreRel a t).filter (fun v => v.relevance_score == s)
      = if a.relevance_score == s
        then a :: t.filter (fun v => v.relevance_score == s)
        else t.filter (fun v => v.relevance_score == s) := by
  induction t with
  | nil => simp [List.orderedInsert, List.filter_cons]
  | cons b t ih =>
    simp only [List.orderedInsert]
    by_cases hr : scoreRel a b
    · simp [hr, List.filter_cons]
    · have hlt : a.relevance_score < b.relevance_score := by
        simp only [scoreRel, Nat.not_le] at hr
        exact hr
      simp only [hr, if_false, List.filter_cons, ih]
      by_cases hpa : a.relevance_score = s
      · have hpb : ¬ b.relevance_score = s := by omega
        simp [hpa, hpb, List.filter_cons]
      · simp [hpa, List.filter_cons]

/-- Stability of the report sort: each score class of the sorted list is
the score class of the input, in input order. -/
theorem pySortDesc_stable (s : Nat) (vs : List Stored) :
    (pySortDesc vs).filter (fun v => v.relevance_score == s)
      = vs.filter (fun v => v.relevance_score == s) := by
  induction vs with
  | nil => rfl
  | cons a t ih =>
    simp only [pySortDesc, List.insertionSort] at ih ⊢
    rw [filter_orderedInsert, ih, List.filter_cons]

/-- First element of the concrete pair refuting C6: lower timestamp. -/
def c6a : Stored :=
  { video := { id := "a", title := none, description := none, tags := none,
               channel_title := none, view_count := none, like_count := none },
    discovered_at := 1, categories := [], relevance_score := 10 }

/-- Second element of the concrete pair refuting C6: same score, more
recent timestamp, later id. -/
def c6b : Stored :=
  { video := { id := "b", title := none, description := none, tags := none,
               channel_title := none, view_count := none, like_count := none },
    discovered_at := 2, categories := [], relevance_score := 10 }

/-- C6 counterexample: on a score tie the code keeps input order, not the
recency-then-id order the claim states, and swapping the input order
changes the report, so the top list is not a function of the item set. -/
theorem c6_counterexample :
    topVideos [c6a, c6b] ≠ specTopItems [c6a, c6b] ∧
      topVideos [c6a, c6b] ≠ topVideos [c6b, c6a] := by decide

/-- C6 amended: the top list is the first ten of the stable sort of the
input by descending relevance score — at most ten items, sorted by
non-increasing score, all drawn from the input, with every score class kept
in input order (so ties follow input order, and the result depends on the
input order, not only on the item set). -/
theorem c6_amended_top_items (vs : List Stored) :
    (topVideos vs).length ≤ 10 ∧
      List.Sorted scoreRel (topVideos vs) ∧
      (∀ v, v ∈ topVideos vs → v ∈ vs) ∧
      (∀ s : Nat, (pySortDesc vs).filter (fun v => v.relevance_score == s)
        = vs.filter (fun v => v.relevance_score == s)) := by
  refine ⟨?_, ?_, ?_, fun s => pySortDesc_stable s vs⟩
  · rw [topVideos, List.length_take]
    exact Nat.min_le_left _ _
  · exact List.Pairwise.sublist (List.take_sublist 10 _)
      (List.sorted_insertionSort scoreRel vs)
  · intro v hv
    exact (List.perm_insertionSort scoreRel vs).subset (List.take_subset _ _ hv)

/-- Witness for the amended C6 at a concrete singleton list. -/
theorem c6_amended_top_items_witness : c6a ∈ [c6a] :=
  (c6_amended_top_items [c6a]).2.2.1 c6a (by decide)

end YTM
